import Mathlib

/-!
Shallow embedding of the DMC-620 memory controller error handling MM driver
(Platform/ARM/Drivers/Dmc620Mm): the DRAM fault-record decoder and CPER
record builder (Dmc620Mm.c, Dmc620HandleDramError), the error event handler
(Dmc620ErrorEventHandler) and the HEST error source descriptor generator
(Dmc620MmErrorSourceInfo.c).

Machine integers are modelled as Nat with explicit reductions modulo 2 ^ w
at the points where the C code assigns a wide value to a narrower field.
MMIO traffic on the selected fault-record slot is modelled as explicit state
passing over a register record plus an operation trace.
-/

/-! Register field constants from Dmc620Mm.h. -/

def DMC620_ERR_STATUS_MV : Nat := 2 ^ 26

def DMC620_ERR_STATUS_AV : Nat := 2 ^ 31

def DMC620_ERR_MISC0_COLUMN_MASK : Nat := 0x3FF

def DMC620_ERR_MISC0_ROW_MASK : Nat := 0x0FFFFC00

def DMC620_ERR_MISC0_ROW_SHIFT : Nat := 10

def DMC620_ERR_MISC0_RANK_MASK : Nat := 0x70000000

def DMC620_ERR_MISC0_RANK_SHIFT : Nat := 28

def DMC620_ERR_MISC0_VAILD : Nat := 2 ^ 31

def DMC620_ERR_MISC1_VAILD : Nat := 2 ^ 31

def DMC620_ERR_MISC1_BANK_MASK : Nat := 0xF

def DMC620_ERR_GSR_ECC_CORRECTED_FH : Nat := 2

/-! Constants from the external edk2 MdePkg headers (Guid/Cper.h,
IndustryStandard/Acpi63.h and Base.h) used by the driver. -/

def EFI_PLATFORM_MEMORY_PHY_ADDRESS_VALID : Nat := 2 ^ 1

def EFI_PLATFORM_MEMORY_PHY_ADDRESS_MASK_VALID : Nat := 2 ^ 2

def EFI_PLATFORM_MEMORY_BANK_VALID : Nat := 2 ^ 6

def EFI_PLATFORM_MEMORY_COLUMN_VALID : Nat := 2 ^ 9

def EFI_PLATFORM_MEMORY_ERROR_RANK_NUM_VALID : Nat := 2 ^ 15

def EFI_PLATFORM_MEMORY_ERROR_EXTENDED_ROW_BIT_16_17_VALID : Nat := 2 ^ 18

def EFI_ACPI_6_3_ERROR_SEVERITY_FATAL : Nat := 1

def EFI_ACPI_6_3_ERROR_SEVERITY_CORRECTED : Nat := 2

def EFI_ACPI_6_3_GENERIC_ERROR_DATA_ENTRY_REVISION : Nat := 0x300

def EFI_ACPI_6_3_GENERIC_HARDWARE_ERROR_VERSION_2 : Nat := 10

def EFI_ACPI_6_3_HARDWARE_ERROR_NOTIFICATION_SOFTWARE_DELEGATED_EXCEPTION : Nat := 11

def EFI_SUCCESS : Nat := 0

def EFI_INVALID_PARAMETER : Nat := 0x8000000000000002

/-! Byte sizes of the structures involved in the error status block layout,
per the packed edk2 definitions referenced by the driver.  UINTN is 8 bytes
on the AArch64 target of this driver. -/

def sizeof_UINTN : Nat := 8

def sizeof_EFI_ACPI_6_3_GENERIC_ERROR_STATUS_STRUCTURE : Nat := 20

def sizeof_EFI_ACPI_6_3_GENERIC_ERROR_DATA_ENTRY_STRUCTURE : Nat := 72

def sizeof_EFI_PLATFORM_MEMORY_ERROR_DATA : Nat := 80

def sizeof_EFI_ACPI_6_3_GENERIC_HARDWARE_ERROR_SOURCE_VERSION_2_STRUCTURE : Nat := 92

/-- GUID as laid out in edk2 (Data1, Data2, Data3, Data4 bytes). -/
structure EfiGuid where
  data1 : Nat
  data2 : Nat
  data3 : Nat
  data4 : List Nat
deriving DecidableEq

/-- EFI_ERROR_SECTION_PLATFORM_MEMORY_GUID from Guid/Cper.h. -/
def EFI_ERROR_SECTION_PLATFORM_MEMORY_GUID : EfiGuid :=
  { data1 := 0xA5BC1114, data2 := 0x6F64, data3 := 0x4EDE,
    data4 := [0xB8, 0x63, 0x3E, 0x83, 0xED, 0x7C, 0x83, 0xB1] }

/-- EFI_PLATFORM_MEMORY_ERROR_DATA from Guid/Cper.h.  Field widths follow the
packed C structure; every field defaults to zero, mirroring the
`MemorySectionInfo = {0}` initialisation in Dmc620HandleDramError. -/
structure EfiPlatformMemoryErrorData where
  validFields : Nat := 0
  errorStatus : Nat := 0
  physicalAddress : Nat := 0
  physicalAddressMask : Nat := 0
  node : Nat := 0
  card : Nat := 0
  moduleRank : Nat := 0
  bank : Nat := 0
  device : Nat := 0
  row : Nat := 0
  column : Nat := 0
  bitPosition : Nat := 0
  requestorId : Nat := 0
  responderId : Nat := 0
  targetId : Nat := 0
  errorType : Nat := 0
  extended : Nat := 0
  rankNum : Nat := 0
  cardHandle : Nat := 0
  moduleHandle : Nat := 0
deriving DecidableEq

/-- One DMC-620 fault-record slot (DMC620_ERR_REGS_TYPE): the registers the
driver reads or writes.  Each register holds a 32-bit value. -/
structure DmcErrRegs where
  errStatus : Nat
  errAddr0 : Nat
  errAddr1 : Nat
  errMisc0 : Nat
  errMisc1 : Nat
  errMisc2 : Nat
  errMisc3 : Nat
  errMisc4 : Nat
  errMisc5 : Nat
deriving DecidableEq

/-- Names of the fault-record slot registers accessed by the driver. -/
inductive DmcErrReg where
  | errStatus
  | errAddr0
  | errAddr1
  | errMisc0
  | errMisc1
  | errMisc2
  | errMisc3
  | errMisc4
  | errMisc5
deriving DecidableEq

/-- One MMIO access on the fault-record slot. -/
inductive MmioOp where
  | read (reg : DmcErrReg) (value : Nat)
  | write (reg : DmcErrReg) (value : Nat)
deriving DecidableEq

def getReg (r : DmcErrRegs) : DmcErrReg → Nat
  | .errStatus => r.errStatus
  | .errAddr0 => r.errAddr0
  | .errAddr1 => r.errAddr1
  | .errMisc0 => r.errMisc0
  | .errMisc1 => r.errMisc1
  | .errMisc2 => r.errMisc2
  | .errMisc3 => r.errMisc3
  | .errMisc4 => r.errMisc4
  | .errMisc5 => r.errMisc5

def setReg (r : DmcErrRegs) (reg : DmcErrReg) (v : Nat) : DmcErrRegs :=
  match reg with
  | .errStatus => { r with errStatus := v }
  | .errAddr0 => { r with errAddr0 := v }
  | .errAddr1 => { r with errAddr1 := v }
  | .errMisc0 => { r with errMisc0 := v }
  | .errMisc1 => { r with errMisc1 := v }
  | .errMisc2 => { r with errMisc2 := v }
  | .errMisc3 => { r with errMisc3 := v }
  | .errMisc4 => { r with errMisc4 := v }
  | .errMisc5 => { r with errMisc5 := v }

/-- Register state together with the trace of MMIO operations issued so far. -/
structure MmioState where
  regs : DmcErrRegs
  trace : List MmioOp
deriving DecidableEq

/-- MmioRead32 on a fault-record slot register: yields the current register
value and appends a read operation to the trace. -/
def mmioRead32 (st : MmioState) (reg : DmcErrReg) : Nat × MmioState :=
  let v := getReg st.regs reg
  (v, { st with trace := st.trace ++ [MmioOp.read reg v] })

/-- MmioWrite32 on a fault-record slot register: stores the value and appends
a write operation to the trace. -/
def mmioWrite32 (st : MmioState) (reg : DmcErrReg) (v : Nat) : MmioState :=
  { regs := setReg st.regs reg v, trace := st.trace ++ [MmioOp.write reg v] }

/-- Lines 93-148 of Dmc620Mm.c: populate the EFI_PLATFORM_MEMORY_ERROR_DATA
section from the five values read out of the fault-record slot.  Assignments
to 16-bit (resp. 8-bit) C fields reduce modulo 2 ^ 16 (resp. 2 ^ 8). -/
def decodeMemorySection (errStatus errAddr0 errAddr1 errMisc0 errMisc1 : Nat) :
    EfiPlatformMemoryErrorData :=
  let m : EfiPlatformMemoryErrorData := {}
  let m :=
    if errStatus &&& DMC620_ERR_STATUS_AV ≠ 0 then
      { m with
        validFields := m.validFields |||
          (EFI_PLATFORM_MEMORY_PHY_ADDRESS_MASK_VALID |||
           EFI_PLATFORM_MEMORY_PHY_ADDRESS_VALID),
        physicalAddressMask := 0xFFFFFFFFFFFF,
        physicalAddress := ((errAddr1 <<< 32) ||| errAddr0) % 2 ^ 64 }
    else m
  let m :=
    if errStatus &&& DMC620_ERR_STATUS_MV ≠ 0 ∧ errMisc0 &&& DMC620_ERR_MISC0_VAILD ≠ 0 then
      { m with
        validFields :=
          ((m.validFields ||| EFI_PLATFORM_MEMORY_COLUMN_VALID) |||
            EFI_PLATFORM_MEMORY_ERROR_EXTENDED_ROW_BIT_16_17_VALID) |||
            EFI_PLATFORM_MEMORY_ERROR_RANK_NUM_VALID,
        column := (errMisc0 &&& DMC620_ERR_MISC0_COLUMN_MASK) % 2 ^ 16,
        row :=
          ((errMisc0 &&& DMC620_ERR_MISC0_ROW_MASK) >>> DMC620_ERR_MISC0_ROW_SHIFT) % 2 ^ 16,
        extended :=
          ((errMisc0 &&& DMC620_ERR_MISC0_ROW_MASK) >>>
            (DMC620_ERR_MISC0_ROW_SHIFT + 16)) % 2 ^ 8,
        rankNum :=
          ((errMisc0 &&& DMC620_ERR_MISC0_RANK_MASK) >>> DMC620_ERR_MISC0_RANK_SHIFT) % 2 ^ 16 }
    else m
  let m :=
    if errStatus &&& DMC620_ERR_STATUS_MV ≠ 0 ∧ errMisc1 &&& DMC620_ERR_MISC1_VAILD ≠ 0 then
      { m with
        validFields := m.validFields ||| EFI_PLATFORM_MEMORY_BANK_VALID,
        bank := (errMisc1 &&& DMC620_ERR_MISC1_BANK_MASK) % 2 ^ 16 }
    else m
  m

/-- The MMIO portion of Dmc620HandleDramError on the selected fault-record
slot (lines 79-168 of Dmc620Mm.c): five record reads, a clear of the status
register by writing back the value just read, the conditional zeroing of misc
registers 2-5, a second clear of the status register, and the decoded memory
error section. -/
def dmc620HandleDramErrorHw (r0 : DmcErrRegs) :
    EfiPlatformMemoryErrorData × MmioState :=
  let st0 : MmioState := { regs := r0, trace := [] }
  let p1 := mmioRead32 st0 .errStatus
  let errStatus := p1.1
  let p2 := mmioRead32 p1.2 .errAddr0
  let errAddr0 := p2.1
  let p3 := mmioRead32 p2.2 .errAddr1
  let errAddr1 := p3.1
  let p4 := mmioRead32 p3.2 .errMisc0
  let errMisc0 := p4.1
  let p5 := mmioRead32 p4.2 .errMisc1
  let errMisc1 := p5.1
  let p6 := mmioRead32 p5.2 .errStatus
  let st7 := mmioWrite32 p6.2 .errStatus p6.1
  let st8 :=
    if errStatus &&& DMC620_ERR_STATUS_MV ≠ 0 then
      let stA := mmioWrite32 st7 .errMisc2 0
      let stB := mmioWrite32 stA .errMisc3 0
      let stC := mmioWrite32 stB .errMisc4 0
      mmioWrite32 stC .errMisc5 0
    else st7
  let p9 := mmioRead32 st8 .errStatus
  let st10 := mmioWrite32 p9.2 .errStatus p9.1
  (decodeMemorySection errStatus errAddr0 errAddr1 errMisc0 errMisc1, st10)

/-- Block status bitfields of EFI_ACPI_6_3_GENERIC_ERROR_STATUS_STRUCTURE. -/
structure GenericErrorBlockStatus where
  uncorrectableErrorValid : Nat
  correctableErrorValid : Nat
  multipleUncorrectableErrors : Nat
  multipleCorrectableErrors : Nat
  errorDataEntryCount : Nat
deriving DecidableEq

/-- EFI_ACPI_6_3_GENERIC_ERROR_STATUS_STRUCTURE. -/
structure GenericErrorStatus where
  blockStatus : GenericErrorBlockStatus
  rawDataOffset : Nat
  rawDataLength : Nat
  dataLength : Nat
  errorSeverity : Nat
deriving DecidableEq

/-- EFI_ACPI_6_3_GENERIC_ERROR_DATA_ENTRY_STRUCTURE.  FruId, FruText and
Timestamp are zero-filled by the driver and modelled as single Nat fields. -/
structure GenericErrorDataEntry where
  sectionType : EfiGuid
  errorSeverity : Nat
  revision : Nat
  validationBits : Nat
  flags : Nat
  errorDataLength : Nat
  fruId : Nat
  fruText : Nat
  timestamp : Nat
deriving DecidableEq

/-- The error status block region for one (instance, severity) pair: the
read-acknowledge word at offset 0, the error status register word at offset
8 holding the address of the block status header, followed by the generic
error status header, one section descriptor and one memory section. -/
structure ErrorStatusBlock where
  readAck : Nat
  errorStatusRegister : Nat
  header : GenericErrorStatus
  sectionDesc : GenericErrorDataEntry
  sectionData : EfiPlatformMemoryErrorData
deriving DecidableEq

/-- Lines 174-234 of Dmc620Mm.c: lay out the error status block at
ErrorBlockBaseAddress.  The read-acknowledge word (offset 0) is not written
by the builder; the error status register word (offset sizeof_UINTN) is set
to the address of the generic error status header that immediately follows
it (offset 2 * sizeof_UINTN). -/
def dmc620BuildErrorRecord (correctedError : Nat)
    (memorySectionInfo : EfiPlatformMemoryErrorData)
    (errorBlockBaseAddress : Nat) (prev : ErrorStatusBlock) : ErrorStatusBlock :=
  { prev with
    errorStatusRegister := errorBlockBaseAddress + 2 * sizeof_UINTN,
    header :=
      { blockStatus :=
          { uncorrectableErrorValid := if correctedError = 0 then 0 else 1,
            correctableErrorValid := if correctedError = 1 then 1 else 0,
            multipleUncorrectableErrors := 0,
            multipleCorrectableErrors := 0,
            errorDataEntryCount := 1 },
        rawDataOffset :=
          sizeof_EFI_ACPI_6_3_GENERIC_ERROR_STATUS_STRUCTURE +
          sizeof_EFI_ACPI_6_3_GENERIC_ERROR_DATA_ENTRY_STRUCTURE,
        rawDataLength := 0,
        dataLength :=
          sizeof_EFI_ACPI_6_3_GENERIC_ERROR_DATA_ENTRY_STRUCTURE +
          sizeof_EFI_PLATFORM_MEMORY_ERROR_DATA,
        errorSeverity :=
          if correctedError = 1 then EFI_ACPI_6_3_ERROR_SEVERITY_CORRECTED
          else EFI_ACPI_6_3_ERROR_SEVERITY_FATAL },
    sectionDesc :=
      { sectionType := EFI_ERROR_SECTION_PLATFORM_MEMORY_GUID,
        errorSeverity :=
          if correctedError = 1 then EFI_ACPI_6_3_ERROR_SEVERITY_CORRECTED
          else EFI_ACPI_6_3_ERROR_SEVERITY_FATAL,
        revision := EFI_ACPI_6_3_GENERIC_ERROR_DATA_ENTRY_REVISION,
        validationBits := 0,
        flags := 0,
        errorDataLength := sizeof_EFI_PLATFORM_MEMORY_ERROR_DATA,
        fruId := 0,
        fruText := 0,
        timestamp := 0 },
    sectionData := memorySectionInfo }

/-- The DMC-620 control register window: the global status register and the
two fault-record slots the driver uses (Err1 for corrected 1-bit faults,
Err2 otherwise). -/
structure Dmc620Regs where
  errgsr : Nat
  err1 : DmcErrRegs
  err2 : DmcErrRegs
deriving DecidableEq

/-- Dmc620HandleDramError (Dmc620Mm.c lines 32-235): selects the fault-record
slot and severity from ErrRecType, runs the MMIO decode of that slot, and
builds the error record in the block region.  Returns the updated register
window, the updated block region and the MMIO trace on the selected slot. -/
def Dmc620HandleDramError (dmc : Dmc620Regs) (errRecType : Nat)
    (errorBlockBaseAddress : Nat) (prev : ErrorStatusBlock) :
    Dmc620Regs × ErrorStatusBlock × List MmioOp :=
  if errRecType = DMC620_ERR_GSR_ECC_CORRECTED_FH then
    let res := dmc620HandleDramErrorHw dmc.err1
    ({ dmc with err1 := res.2.regs },
     dmc620BuildErrorRecord 1 res.1 errorBlockBaseAddress prev,
     res.2.trace)
  else
    let res := dmc620HandleDramErrorHw dmc.err2
    ({ dmc with err2 := res.2.regs },
     dmc620BuildErrorRecord 0 res.1 errorBlockBaseAddress prev,
     res.2.trace)

/-- Platform configuration values (FixedPcd inputs of the driver). -/
structure Dmc620Config where
  numCtrl : Nat
  errSourceCount : Nat
  oneBitErrorDataBase : Nat
  oneBitErrorDataSize : Nat
  oneBitErrorSourceId : Nat
  sdeiEventBase : Nat
deriving DecidableEq

/-- Result of one invocation of the event handler: the EFI status, the value
stored through CommBufferSize, the register window, the error status block
region of the signalling instance, and the MMIO trace on the fault-record
slot (empty when no decode was performed). -/
structure EventHandlerResult where
  status : Nat
  commBufferSize : Nat
  dmc : Dmc620Regs
  block : ErrorStatusBlock
  trace : List MmioOp
deriving DecidableEq

/-- Dmc620ErrorEventHandler (Dmc620Mm.c lines 257-307): reads the global
status register; when the ECC corrected fault bit is set it handles the
corrected 1-bit DRAM error on the block region of the signalling instance,
otherwise the event is only logged and dropped.  In both cases the
communication buffer size is cleared and EFI_SUCCESS is returned. -/
def Dmc620ErrorEventHandler (cfg : Dmc620Config) (dmcIdx : Nat)
    (dmc : Dmc620Regs) (block : ErrorStatusBlock) : EventHandlerResult :=
  let errGsr := dmc.errgsr
  if errGsr &&& DMC620_ERR_GSR_ECC_CORRECTED_FH ≠ 0 then
    let res := Dmc620HandleDramError dmc DMC620_ERR_GSR_ECC_CORRECTED_FH
      (cfg.oneBitErrorDataBase + cfg.oneBitErrorDataSize * dmcIdx) block
    { status := EFI_SUCCESS, commBufferSize := 0,
      dmc := res.1, block := res.2.1, trace := res.2.2 }
  else
    { status := EFI_SUCCESS, commBufferSize := 0,
      dmc := dmc, block := block, trace := [] }

/-- EFI_ACPI_6_3_GENERIC_HARDWARE_ERROR_SOURCE_VERSION_2_STRUCTURE, with the
two generic address structures reduced to the address they carry and the
notification structure reduced to its type and SDEI event id. -/
structure GhesV2Descriptor where
  descType : Nat
  sourceId : Nat
  relatedSourceId : Nat
  flags : Nat
  enabled : Nat
  numberOfRecordsToPreAllocate : Nat
  maxSectionsPerRecord : Nat
  maxRawDataLength : Nat
  errorStatusAddress : Nat
  notificationType : Nat
  notificationEvent : Nat
  errorStatusBlockLength : Nat
  readAckAddress : Nat
  readAckPreserve : Nat
  readAckWrite : Nat
deriving DecidableEq

/-- Dmc620SetupDramErrorDescriptor (Dmc620MmErrorSourceInfo.c lines 32-83):
the GHESv2 descriptor built for one DMC instance. -/
def Dmc620SetupDramErrorDescriptor (cfg : Dmc620Config) (dmcIdx : Nat) :
    GhesV2Descriptor :=
  let errorBlockData := cfg.oneBitErrorDataBase + cfg.oneBitErrorDataSize * dmcIdx
  { descType := EFI_ACPI_6_3_GENERIC_HARDWARE_ERROR_VERSION_2,
    sourceId := cfg.oneBitErrorSourceId + dmcIdx,
    relatedSourceId := 0xFFFF,
    flags := 0,
    enabled := 1,
    numberOfRecordsToPreAllocate := 1,
    maxSectionsPerRecord := 1,
    maxRawDataLength := sizeof_EFI_PLATFORM_MEMORY_ERROR_DATA,
    errorStatusAddress := errorBlockData + 8,
    notificationType := EFI_ACPI_6_3_HARDWARE_ERROR_NOTIFICATION_SOFTWARE_DELEGATED_EXCEPTION,
    notificationEvent := cfg.sdeiEventBase + dmcIdx,
    errorStatusBlockLength :=
      sizeof_EFI_ACPI_6_3_GENERIC_ERROR_STATUS_STRUCTURE +
      sizeof_EFI_ACPI_6_3_GENERIC_ERROR_DATA_ENTRY_STRUCTURE +
      sizeof_EFI_PLATFORM_MEMORY_ERROR_DATA,
    readAckAddress := errorBlockData,
    readAckPreserve := 0,
    readAckWrite := 0 }

/-- Result of one invocation of the descriptor protocol handler: EFI status,
the values stored through ErrorSourcesLength and ErrorSourcesCount, and the
descriptors written through Buffer (none when Buffer is NULL). -/
structure DescInfoResult where
  status : Nat
  errorSourcesLength : Nat
  errorSourcesCount : Nat
  buffer : Option (List GhesV2Descriptor)
deriving DecidableEq

/-- Dmc620ErrorSourceDescInfoGet (Dmc620MmErrorSourceInfo.c lines 106-148):
always stores the total descriptor length and count; with a NULL buffer it
returns EFI_INVALID_PARAMETER, otherwise it writes one DRAM error source
descriptor per DMC instance, for instance indices 0, 1, ..., NumCtrl - 1 in
that order, and returns EFI_SUCCESS. -/
def Dmc620ErrorSourceDescInfoGet (cfg : Dmc620Config) (bufferProvided : Bool) :
    DescInfoResult :=
  let len := cfg.numCtrl * cfg.errSourceCount *
    sizeof_EFI_ACPI_6_3_GENERIC_HARDWARE_ERROR_SOURCE_VERSION_2_STRUCTURE
  let count := cfg.numCtrl * cfg.errSourceCount
  if bufferProvided = false then
    { status := EFI_INVALID_PARAMETER, errorSourcesLength := len,
      errorSourcesCount := count, buffer := none }
  else
    { status := EFI_SUCCESS, errorSourcesLength := len,
      errorSourcesCount := count,
      buffer := some ((List.range cfg.numCtrl).map (Dmc620SetupDramErrorDescriptor cfg)) }

/-- Modelled from the spec: the platform configuration value
PcdDmc620ErrSourceCount is declared outside src/ (platform description
files).  Per the spec the generator emits one descriptor per controller
instance and only the corrected severity is a supported error source, so the
configured number of error sources per controller is one. -/
def specDmc620ErrSourceCount : Nat := 1

/-! Concrete values used to exercise the definitions. -/

/-- An all-zero fault-record slot. -/
def zeroDmcErrRegs : DmcErrRegs :=
  { errStatus := 0, errAddr0 := 0, errAddr1 := 0, errMisc0 := 0,
    errMisc1 := 0, errMisc2 := 0, errMisc3 := 0, errMisc4 := 0, errMisc5 := 0 }

/-- An all-zero generic error status header. -/
def zeroGenericErrorStatus : GenericErrorStatus :=
  { blockStatus :=
      { uncorrectableErrorValid := 0, correctableErrorValid := 0,
        multipleUncorrectableErrors := 0, multipleCorrectableErrors := 0,
        errorDataEntryCount := 0 },
    rawDataOffset := 0, rawDataLength := 0, dataLength := 0, errorSeverity := 0 }

/-- An all-zero section descriptor. -/
def zeroGenericErrorDataEntry : GenericErrorDataEntry :=
  { sectionType := { data1 := 0, data2 := 0, data3 := 0, data4 := [] },
    errorSeverity := 0, revision := 0, validationBits := 0, flags := 0,
    errorDataLength := 0, fruId := 0, fruText := 0, timestamp := 0 }

/-- A zero-initialised error status block region, as left by the setup-time
SetMem of the region. -/
def zeroErrorStatusBlock : ErrorStatusBlock :=
  { readAck := 0, errorStatusRegister := 0, header := zeroGenericErrorStatus,
    sectionDesc := zeroGenericErrorDataEntry, sectionData := {} }

/-- A sample platform configuration with two controllers and one error
source per controller. -/
def cfgEx : Dmc620Config :=
  { numCtrl := 2, errSourceCount := 1, oneBitErrorDataBase := 0x80000000,
    oneBitErrorDataSize := 0x1000, oneBitErrorSourceId := 0x100,
    sdeiEventBase := 0x804 }

/-- A sample register window whose fault-record slots are all zero. -/
def dmcEx : Dmc620Regs :=
  { errgsr := 0, err1 := zeroDmcErrRegs, err2 := zeroDmcErrRegs }

/-- Claim C1, failing input: with the block status bits as written by
Dmc620HandleDramError, a Corrected-severity record (ErrRecType =
DMC620_ERR_GSR_ECC_CORRECTED_FH) sets both the correctable-valid and the
uncorrectable-valid bits of the generic error status header, and an
Uncorrected-severity record clears both; in no case is exactly one set. -/
theorem dmc620_c1_block_status_both_bits :
    ((Dmc620HandleDramError dmcEx DMC620_ERR_GSR_ECC_CORRECTED_FH 0x80000000
        zeroErrorStatusBlock).2.1.header.blockStatus.correctableErrorValid = 1 ∧
     (Dmc620HandleDramError dmcEx DMC620_ERR_GSR_ECC_CORRECTED_FH 0x80000000
        zeroErrorStatusBlock).2.1.header.blockStatus.uncorrectableErrorValid = 1) ∧
    ((Dmc620HandleDramError dmcEx 0 0x80000000
        zeroErrorStatusBlock).2.1.header.blockStatus.correctableErrorValid = 0 ∧
     (Dmc620HandleDramError dmcEx 0 0x80000000
        zeroErrorStatusBlock).2.1.header.blockStatus.uncorrectableErrorValid = 0) := by
  decide

/-- Claim C4: a NULL-buffer call to the descriptor protocol handler still
stores the count and total length, returns EFI_INVALID_PARAMETER rather than
success, reports the same count and total length as a call with a buffer,
and the total length is the count times the size of one GHESv2 descriptor. -/
theorem dmc620_c4_null_buffer_protocol (cfg : Dmc620Config) :
    (Dmc620ErrorSourceDescInfoGet cfg false).status = EFI_INVALID_PARAMETER ∧
    (Dmc620ErrorSourceDescInfoGet cfg false).status ≠ EFI_SUCCESS ∧
    (Dmc620ErrorSourceDescInfoGet cfg false).errorSourcesCount =
      (Dmc620ErrorSourceDescInfoGet cfg true).errorSourcesCount ∧
    (Dmc620ErrorSourceDescInfoGet cfg false).errorSourcesLength =
      (Dmc620ErrorSourceDescInfoGet cfg true).errorSourcesLength ∧
    (Dmc620ErrorSourceDescInfoGet cfg false).errorSourcesLength =
      (Dmc620ErrorSourceDescInfoGet cfg false).errorSourcesCount *
        sizeof_EFI_ACPI_6_3_GENERIC_HARDWARE_ERROR_SOURCE_VERSION_2_STRUCTURE := by
  refine ⟨rfl, ?_, rfl, rfl, rfl⟩
  show EFI_INVALID_PARAMETER ≠ EFI_SUCCESS
  decide

/-- Claim C6: after every run of the error record builder (through
Dmc620HandleDramError, at either severity), the error status register word
of the block holds the address of the generic error status header that
immediately follows it (the block base plus the read-acknowledge word plus
the status register word itself), and the header's DataLength equals the
size of one data-entry header plus one memory error section. -/
theorem dmc620_c6_status_pointer_invariant (dmc : Dmc620Regs)
    (errRecType errorBlockBaseAddress : Nat) (prev : ErrorStatusBlock) :
    (Dmc620HandleDramError dmc errRecType errorBlockBaseAddress
        prev).2.1.errorStatusRegister =
      errorBlockBaseAddress + sizeof_UINTN + sizeof_UINTN ∧
    (Dmc620HandleDramError dmc errRecType errorBlockBaseAddress
        prev).2.1.header.dataLength =
      sizeof_EFI_ACPI_6_3_GENERIC_ERROR_DATA_ENTRY_STRUCTURE +
      sizeof_EFI_PLATFORM_MEMORY_ERROR_DATA := by
  unfold Dmc620HandleDramError dmc620BuildErrorRecord
  split <;> exact ⟨by simp only [sizeof_UINTN], rfl⟩

/-- Claim C9: when the global status register does not have the corrected
fault bit set, the event handler leaves the error status block region of the
instance unchanged, issues no MMIO operation on a fault-record slot and
leaves the register window untouched. -/
theorem dmc620_c9_frame_unchanged (cfg : Dmc620Config) (dmcIdx : Nat)
    (dmc : Dmc620Regs) (block : ErrorStatusBlock)
    (h : dmc.errgsr &&& DMC620_ERR_GSR_ECC_CORRECTED_FH = 0) :
    (Dmc620ErrorEventHandler cfg dmcIdx dmc block).block = block ∧
    (Dmc620ErrorEventHandler cfg dmcIdx dmc block).trace = [] ∧
    (Dmc620ErrorEventHandler cfg dmcIdx dmc block).dmc = dmc := by
  unfold Dmc620ErrorEventHandler
  rw [if_neg (by simp [h])]
  exact ⟨rfl, rfl, rfl⟩

/-- Witness for C9 at a concrete unrecognized global-status pattern (only
bit 2 set, the corrected-fault bit clear). -/
theorem dmc620_c9_frame_unchanged_witness :
    (Dmc620ErrorEventHandler cfgEx 0 { dmcEx with errgsr := 4 }
        zeroErrorStatusBlock).block = zeroErrorStatusBlock ∧
    (Dmc620ErrorEventHandler cfgEx 0 { dmcEx with errgsr := 4 }
        zeroErrorStatusBlock).trace = [] ∧
    (Dmc620ErrorEventHandler cfgEx 0 { dmcEx with errgsr := 4 }
        zeroErrorStatusBlock).dmc = { dmcEx with errgsr := 4 } :=
  dmc620_c9_frame_unchanged cfgEx 0 { dmcEx with errgsr := 4 }
    zeroErrorStatusBlock (by decide)

/-- Claim C10: every invocation of the event handler, whether the corrected
fault bit is set or the event is dropped, stores 0 through CommBufferSize
and returns EFI_SUCCESS. -/
theorem dmc620_c10_handler_success (cfg : Dmc620Config) (dmcIdx : Nat)
    (dmc : Dmc620Regs) (block : ErrorStatusBlock) :
    (Dmc620ErrorEventHandler cfg dmcIdx dmc block).status = EFI_SUCCESS ∧
    (Dmc620ErrorEventHandler cfg dmcIdx dmc block).commBufferSize = 0 := by
  by_cases h : dmc.errgsr &&& DMC620_ERR_GSR_ECC_CORRECTED_FH ≠ 0 <;>
    simp [Dmc620ErrorEventHandler, h]

/-- Claim C7: the MMIO trace of every fault-record decode consists of the
five record reads, then a status read immediately followed by a status write
of the value just read, then zero writes to misc registers 2 through 5
exactly when the misc-valid bit of the status value is set, then a second
status read immediately followed by a status write of the value just read. -/
theorem dmc620_c7_double_clear_trace (r : DmcErrRegs) :
    (dmc620HandleDramErrorHw r).2.trace =
      [MmioOp.read .errStatus r.errStatus, MmioOp.read .errAddr0 r.errAddr0,
       MmioOp.read .errAddr1 r.errAddr1, MmioOp.read .errMisc0 r.errMisc0,
       MmioOp.read .errMisc1 r.errMisc1,
       MmioOp.read .errStatus r.errStatus, MmioOp.write .errStatus r.errStatus] ++
      (if r.errStatus &&& DMC620_ERR_STATUS_MV ≠ 0 then
        [MmioOp.write .errMisc2 0, MmioOp.write .errMisc3 0,
         MmioOp.write .errMisc4 0, MmioOp.write .errMisc5 0]
       else []) ++
      [MmioOp.read .errStatus r.errStatus, MmioOp.write .errStatus r.errStatus] := by
  by_cases h : r.errStatus &&& DMC620_ERR_STATUS_MV ≠ 0 <;>
    simp [dmc620HandleDramErrorHw, mmioRead32, mmioWrite32, getReg, setReg, h]

/-- Claim C2: whenever the misc-valid gates are set, the Row field of the
memory section takes only the low 16 bits of the masked and shifted misc-0
row field, and the Extended field takes exactly the remaining upper bits of
that shared field (which fit in two bits). -/
theorem dmc620_c2_row_field_split
    (errStatus errAddr0 errAddr1 errMisc0 errMisc1 : Nat)
    (hMV : errStatus &&& DMC620_ERR_STATUS_MV ≠ 0)
    (hV : errMisc0 &&& DMC620_ERR_MISC0_VAILD ≠ 0) :
    (decodeMemorySection errStatus errAddr0 errAddr1 errMisc0 errMisc1).row =
      ((errMisc0 &&& DMC620_ERR_MISC0_ROW_MASK) >>>
        DMC620_ERR_MISC0_ROW_SHIFT) % 2 ^ 16 ∧
    (decodeMemorySection errStatus errAddr0 errAddr1 errMisc0 errMisc1).extended =
      ((errMisc0 &&& DMC620_ERR_MISC0_ROW_MASK) >>>
        DMC620_ERR_MISC0_ROW_SHIFT) / 2 ^ 16 ∧
    (decodeMemorySection errStatus errAddr0 errAddr1 errMisc0 errMisc1).extended < 4 := by
  have hmask : errMisc0 &&& 0x0FFFFC00 ≤ 0x0FFFFC00 :=
    Nat.and_le_right
  by_cases h1 : errStatus &&& DMC620_ERR_STATUS_AV ≠ 0 <;>
    by_cases h2 : errMisc1 &&& DMC620_ERR_MISC1_VAILD ≠ 0 <;>
    refine ⟨?_, ?_, ?_⟩ <;>
    simp [decodeMemorySection, h1, h2, hMV, hV, DMC620_ERR_MISC0_ROW_SHIFT,
      DMC620_ERR_MISC0_ROW_MASK] <;>
    omega

/-- Witness for C2: a misc-0 value whose masked, shifted row field is
0x30001 under set valid gates splits into Row = 0x0001 and Extended = 0x3. -/
theorem dmc620_c2_row_field_split_witness :
    ((0x8C000400 &&& DMC620_ERR_MISC0_ROW_MASK) >>>
      DMC620_ERR_MISC0_ROW_SHIFT = 0x30001) ∧
    (decodeMemorySection (2 ^ 26) 0 0 0x8C000400 0).row = 0x0001 ∧
    (decodeMemorySection (2 ^ 26) 0 0 0x8C000400 0).extended = 0x3 := by
  have h := dmc620_c2_row_field_split (2 ^ 26) 0 0 0x8C000400 0
    (by decide) (by decide)
  refine ⟨by decide, ?_, ?_⟩
  · rw [h.1]; decide
  · rw [h.2.1]; decide

/-- Claim C5: when the address-valid bit of the status value is set, the
decoded physical address is exactly (addrHigh <<< 32) ||| addrLow for the
32-bit address register halves, and the physical address mask is the
48-one-bits value 0xFFFFFFFFFFFF. -/
theorem dmc620_c5_physical_address
    (errStatus errAddr0 errAddr1 errMisc0 errMisc1 : Nat)
    (hAV : errStatus &&& DMC620_ERR_STATUS_AV ≠ 0)
    (h0 : errAddr0 < 2 ^ 32) (h1 : errAddr1 < 2 ^ 32) :
    (decodeMemorySection errStatus errAddr0 errAddr1 errMisc0
        errMisc1).physicalAddress = (errAddr1 <<< 32) ||| errAddr0 ∧
    (decodeMemorySection errStatus errAddr0 errAddr1 errMisc0
        errMisc1).physicalAddressMask = 0xFFFFFFFFFFFF := by
  have hs : errAddr1 <<< 32 < 2 ^ 64 := by
    rw [Nat.shiftLeft_eq]
    omega
  have hlt : (errAddr1 <<< 32) ||| errAddr0 < 2 ^ 64 :=
    Nat.or_lt_two_pow hs (lt_trans h0 (by norm_num))
  have hmod : ((errAddr1 <<< 32) ||| errAddr0) % 2 ^ 64 =
      (errAddr1 <<< 32) ||| errAddr0 := Nat.mod_eq_of_lt hlt
  by_cases hm : errStatus &&& DMC620_ERR_STATUS_MV ≠ 0 <;>
    by_cases hm0 : errMisc0 &&& DMC620_ERR_MISC0_VAILD ≠ 0 <;>
    by_cases hm1 : errMisc1 &&& DMC620_ERR_MISC1_VAILD ≠ 0 <;>
    simp [decodeMemorySection, hAV, hm, hm0, hm1, hmod, hlt] <;> omega

/-- Witness for C5: address halves 0x00000001 and 0x00000002 decode to the
physical address (0x2 <<< 32) ||| 0x1 = 0x200000001 with the fixed mask. -/
theorem dmc620_c5_physical_address_witness :
    (decodeMemorySection (2 ^ 31) 1 2 0 0).physicalAddress = 0x200000001 ∧
    (decodeMemorySection (2 ^ 31) 1 2 0 0).physicalAddressMask =
      0xFFFFFFFFFFFF := by
  have h := dmc620_c5_physical_address (2 ^ 31) 1 2 0 0
    (by decide) (by decide) (by decide)
  exact ⟨by rw [h.1]; decide, h.2⟩

/-- Claim C8: when the address-valid bit of the status value is clear, the
memory section's physical-address and address-mask validity bits are clear
and both fields remain zero, whatever the misc fields decode to. -/
theorem dmc620_c8_address_invalid
    (errStatus errAddr0 errAddr1 errMisc0 errMisc1 : Nat)
    (hAV : errStatus &&& DMC620_ERR_STATUS_AV = 0) :
    (decodeMemorySection errStatus errAddr0 errAddr1 errMisc0
        errMisc1).validFields &&& EFI_PLATFORM_MEMORY_PHY_ADDRESS_VALID = 0 ∧
    (decodeMemorySection errStatus errAddr0 errAddr1 errMisc0
        errMisc1).validFields &&& EFI_PLATFORM_MEMORY_PHY_ADDRESS_MASK_VALID = 0 ∧
    (decodeMemorySection errStatus errAddr0 errAddr1 errMisc0
        errMisc1).physicalAddress = 0 ∧
    (decodeMemorySection errStatus errAddr0 errAddr1 errMisc0
        errMisc1).physicalAddressMask = 0 := by
  have hAV2 : ¬ errStatus &&& DMC620_ERR_STATUS_AV ≠ 0 := by simp [hAV]
  by_cases hm : errStatus &&& DMC620_ERR_STATUS_MV ≠ 0 <;>
    by_cases hm0 : errMisc0 &&& DMC620_ERR_MISC0_VAILD ≠ 0 <;>
    by_cases hm1 : errMisc1 &&& DMC620_ERR_MISC1_VAILD ≠ 0 <;>
    simp [decodeMemorySection, hAV2, hm, hm0, hm1] <;>
    decide

/-- Witness for C8: a status value with only the misc-valid bit set (address
valid clear) and both misc valid bits set leaves the address fields zero and
their validity bits clear. -/
theorem dmc620_c8_address_invalid_witness :
    (decodeMemorySection (2 ^ 26) 5 7 (2 ^ 31) (2 ^ 31)).validFields &&&
      EFI_PLATFORM_MEMORY_PHY_ADDRESS_VALID = 0 ∧
    (decodeMemorySection (2 ^ 26) 5 7 (2 ^ 31) (2 ^ 31)).validFields &&&
      EFI_PLATFORM_MEMORY_PHY_ADDRESS_MASK_VALID = 0 ∧
    (decodeMemorySection (2 ^ 26) 5 7 (2 ^ 31) (2 ^ 31)).physicalAddress = 0 ∧
    (decodeMemorySection (2 ^ 26) 5 7 (2 ^ 31) (2 ^ 31)).physicalAddressMask = 0 :=
  dmc620_c8_address_invalid (2 ^ 26) 5 7 (2 ^ 31) (2 ^ 31) (by decide)

/-- Claim C3: called with a buffer, the descriptor generator writes exactly
the reported count of descriptors; the k-th written descriptor is the
instance-k DRAM error descriptor (ascending instance order, strictly
increasing source ids), and its notification event id equals the SDEI base
event id plus k. -/
theorem dmc620_c3_descriptor_generation (cfg : Dmc620Config)
    (h : cfg.errSourceCount = specDmc620ErrSourceCount) :
    ∃ descs : List GhesV2Descriptor,
      (Dmc620ErrorSourceDescInfoGet cfg true).buffer = some descs ∧
      descs.length = (Dmc620ErrorSourceDescInfoGet cfg true).errorSourcesCount ∧
      (∀ k : Nat, ∀ hk : k < descs.length,
        descs.get ⟨k, hk⟩ = Dmc620SetupDramErrorDescriptor cfg k ∧
        (descs.get ⟨k, hk⟩).notificationEvent = cfg.sdeiEventBase + k) ∧
      (∀ j k : Nat, ∀ hj : j < descs.length, ∀ hk : k < descs.length,
        j < k →
        (descs.get ⟨j, hj⟩).sourceId < (descs.get ⟨k, hk⟩).sourceId) := by
  refine ⟨(List.range cfg.numCtrl).map (Dmc620SetupDramErrorDescriptor cfg),
    rfl, ?_, ?_, ?_⟩
  · simp [Dmc620ErrorSourceDescInfoGet, h, specDmc620ErrSourceCount]
  · intro k hk
    constructor
    · simp [List.get_eq_getElem]
    · simp [List.get_eq_getElem, Dmc620SetupDramErrorDescriptor]
  · intro j k hj hk hjk
    have hsrc : ∀ i : Nat, ∀ hi : i <
        ((List.range cfg.numCtrl).map (Dmc620SetupDramErrorDescriptor cfg)).length,
        (((List.range cfg.numCtrl).map
          (Dmc620SetupDramErrorDescriptor cfg)).get ⟨i, hi⟩).sourceId =
          cfg.oneBitErrorSourceId + i := by
      intro i hi
      simp [List.get_eq_getElem, Dmc620SetupDramErrorDescriptor]
    rw [hsrc j hj, hsrc k hk]
    omega

/-- Witness for C3 at the sample two-controller configuration. -/
theorem dmc620_c3_descriptor_generation_witness :
    cfgEx.errSourceCount = specDmc620ErrSourceCount ∧
    ∃ descs : List GhesV2Descriptor,
      (Dmc620ErrorSourceDescInfoGet cfgEx true).buffer = some descs ∧
      descs.length = (Dmc620ErrorSourceDescInfoGet cfgEx true).errorSourcesCount ∧
      (∀ k : Nat, ∀ hk : k < descs.length,
        descs.get ⟨k, hk⟩ = Dmc620SetupDramErrorDescriptor cfgEx k ∧
        (descs.get ⟨k, hk⟩).notificationEvent = cfgEx.sdeiEventBase + k) ∧
      (∀ j k : Nat, ∀ hj : j < descs.length, ∀ hk : k < descs.length,
        j < k →
        (descs.get ⟨j, hj⟩).sourceId < (descs.get ⟨k, hk⟩).sourceId) :=
  ⟨by decide, dmc620_c3_descriptor_generation cfgEx (by decide)⟩
